import Mathlib

/-!
Verification development for the synology-office-exporter download-history
subsystem.  The Python module `synology_office_exporter/download_history.py`
is embedded shallowly: parsed JSON documents become the inductive `JValue`,
Python dictionaries become association lists with unique keys (`PyDict`),
and methods of `DownloadHistoryFile` become pure functions.  Exceptions are
modelled with `Except`/`Option` error results: `PyErr.downloadHistoryError`
stands for the raised `DownloadHistoryError`, while `PyErr.uncaught` stands
for an uncaught dynamic-typing exception (TypeError/KeyError/AttributeError)
that Python would raise on an ill-typed value.
-/

namespace SynologyOfficeExporter

/-- Model of a parsed JSON value (the result of `json.load`). -/
inductive JValue where
  | jnull : JValue
  | jbool : Bool → JValue
  | jnum : Int → JValue
  | jstr : String → JValue
  | jarr : List JValue → JValue
  | jobj : List (String × JValue) → JValue

/-- A Python `dict` keyed by strings, as produced by `json.load` for a JSON
object.  Keys are unique by construction in Python; operations below use the
first occurrence, which coincides with dict semantics on unique keys. -/
abbrev PyDict := List (String × JValue)

/-- Python `d.get(k)` / `d[k]` membership lookup. -/
def pyGet : PyDict → String → Option JValue
  | [], _ => none
  | (k', v) :: rest, k => if k' = k then some v else pyGet rest k

/-- Python `del d[k]` (removes the binding for `k`; on a unique-key dict this
is exactly dropping every pair whose key is `k`). -/
def pyDel (d : PyDict) (k : String) : PyDict :=
  d.filter (fun kv => kv.1 != k)

/-- Python `k in d`. -/
def pyHasKey (d : PyDict) (k : String) : Bool :=
  (pyGet d k).isSome

/-- Python equality test between an arbitrary value and a string constant:
only a `str` with the same content compares equal. -/
def JValue.eqStr : JValue → String → Bool
  | .jstr s, t => s == t
  | _, _ => false

/-- Outcome of a raised Python exception. -/
inductive PyErr where
  | downloadHistoryError : PyErr
  | uncaught : PyErr
deriving DecidableEq

/-- Source constant `HISTORY_VERSION = 1`. -/
def HISTORY_VERSION : Int := 1

/-- Source constant `HISTORY_MAGIC = 'SYNOLOGY_OFFICE_EXPORTER'`. -/
def HISTORY_MAGIC : String := "SYNOLOGY_OFFICE_EXPORTER"

/-- The `self.lock` attribute: either `None`, or a `FileLock` object together
with whether the lock is currently acquired. -/
inductive LockAttr where
  | noneAttr : LockAttr
  | lockObj : Bool → LockAttr
deriving DecidableEq

/-- Whether the lock attribute holds an acquired lock. -/
def LockAttr.held : LockAttr → Bool
  | .noneAttr => false
  | .lockObj h => h

/-- In-memory state of a `DownloadHistoryFile` instance (the attributes set by
`__init__` that the claims are about; the two path attributes are fixed
functions of `output_dir` and are left implicit). -/
structure DownloadHistoryFile where
  lock : LockAttr
  download_history : PyDict
  force_download : Bool
  skip_history : Bool

namespace DownloadHistoryFile

/-- State of a freshly constructed instance: `__init__` sets `lock = None`
and `download_history = {}`. -/
def init (force_download skip_history : Bool) : DownloadHistoryFile :=
  ⟨LockAttr.noneAttr, [], force_download, skip_history⟩

/-- Check `meta.get('magic') != HISTORY_MAGIC` (negated): a missing key gives
`None`, which is unequal to the magic string. -/
def magicMatches (m : PyDict) : Bool :=
  match pyGet m "magic" with
  | some v => v.eqStr HISTORY_MAGIC
  | none => false

/-- Evaluate `meta.get('version', 0)` as an integer.  A Python `bool` is an
`int` subtype, so `True`/`False` compare as `1`/`0`; any other non-numeric
value would make the later `>` comparison raise an uncaught TypeError. -/
def versionValue (m : PyDict) : Except PyErr Int :=
  match pyGet m "version" with
  | none => .ok 0
  | some (.jnum n) => .ok n
  | some (.jbool b) => .ok (if b then 1 else 0)
  | some _ => .error .uncaught

/-- Evaluate `history_data.get('files', {})` as a dict.  If the value is
present but not a JSON object, Python stores the raw value and every later
dict operation on the store fails; the typed embedding reports that
ill-typed state at load time. -/
def filesValue (fields : PyDict) : Except PyErr PyDict :=
  match pyGet fields "files" with
  | none => .ok []
  | some (.jobj fs) => .ok fs
  | some _ => .error .uncaught

/-- Embedding of `DownloadHistoryFile.load_history`.  The history file on
disk is `none` when absent, `some none` when present but not parseable as
JSON (`json.load` raises, wrapped into `DownloadHistoryError`), and
`some (some v)` when it parses to `v`.  `prior` is the value of
`self.download_history` before the call; the source falls through its
`isinstance(...) and '_meta' in ...` guard without touching the mapping when
the parsed value is not a dict or lacks the `_meta` key. -/
def load_history (skip_history : Bool) (file : Option (Option JValue))
    (prior : PyDict) : Except PyErr PyDict :=
  if skip_history then .ok []
  else
    match file with
    | none => .ok []
    | some none => .error .downloadHistoryError
    | some (some data) =>
      match data with
      | .jobj fields =>
        match pyGet fields "_meta" with
        | none => .ok prior
        | some (.jobj m) =>
          if magicMatches m = false then .error .downloadHistoryError
          else
            match versionValue m with
            | .error e => .error e
            | .ok v =>
              if v > HISTORY_VERSION then .error .downloadHistoryError
              else filesValue fields
        | some _ => .error .uncaught
      | _ => .ok prior

/-- Calling `load_history` on an instance: on success the mapping attribute
is assigned the loaded value; a raise happens before any assignment, so the
instance is returned unchanged together with the propagated error. -/
def load_into (s : DownloadHistoryFile) (file : Option (Option JValue)) :
    DownloadHistoryFile × Option PyErr :=
  match load_history s.skip_history file s.download_history with
  | .ok h => ({ s with download_history := h }, none)
  | .error e => (s, some e)

/-- Embedding of `_build_metadata` with the `datetime.now()` string passed in
as `created`. -/
def build_metadata (created : String) : PyDict :=
  [("version", JValue.jnum HISTORY_VERSION),
   ("magic", JValue.jstr HISTORY_MAGIC),
   ("created", JValue.jstr created),
   ("program", JValue.jstr "synology-office-exporter")]

/-- Embedding of `save_history`: the JSON value handed to `json.dump`, or
`none` when `skip_history` suppresses the write. -/
def save_history (s : DownloadHistoryFile) (created : String) : Option JValue :=
  if s.skip_history then none
  else
    some (JValue.jobj
      [("_meta", JValue.jobj (build_metadata created)),
       ("files", JValue.jobj s.download_history)])

/-- Embedding of `should_download`.  The stored entry is indexed with
`['hash']`, which raises on a missing key or a non-dict entry. -/
def should_download (s : DownloadHistoryFile) (file_path hash_value : String) :
    Except PyErr Bool :=
  if s.force_download then .ok true
  else
    match pyGet s.download_history file_path with
    | none => .ok true
    | some (.jobj entry) =>
      match pyGet entry "hash" with
      | some h => .ok (!(h.eqStr hash_value))
      | none => .error .uncaught
    | some _ => .error .uncaught

/-- Embedding of `lock_history`.  `otherHolds` states whether another process
currently holds the lock file.  The source first assigns
`self.lock = FileLock(...)` and then calls `acquire(blocking=False)`, which
raises `Timeout` when the lock is held elsewhere; the handler re-raises it as
`DownloadHistoryError`.  Nothing happens at all under `skip_history`. -/
def lock_history (s : DownloadHistoryFile) (otherHolds : Bool) :
    DownloadHistoryFile × Option PyErr :=
  if s.skip_history then (s, none)
  else
    if otherHolds then
      ({ s with lock := LockAttr.lockObj false }, some PyErr.downloadHistoryError)
    else
      ({ s with lock := LockAttr.lockObj true }, none)

/-- Embedding of `unlock_history`: `if self.lock: self.lock.release()`.  A
`FileLock` object is always truthy, so `release` runs whenever the attribute
is not `None`; releasing an unacquired lock is a no-op on the file. -/
def unlock_history (s : DownloadHistoryFile) : DownloadHistoryFile :=
  match s.lock with
  | LockAttr.noneAttr => s
  | LockAttr.lockObj _ => { s with lock := LockAttr.lockObj false }

/-- Embedding of `__enter__`: `lock_history` then `load_history`; a raise in
the former propagates and the latter never runs. -/
def enter (s : DownloadHistoryFile) (otherHolds : Bool)
    (file : Option (Option JValue)) : DownloadHistoryFile × Option PyErr :=
  match lock_history s otherHolds with
  | (s1, some e) => (s1, some e)
  | (s1, none) => load_into s1 file

/-- Observable steps taken by `__exit__`. -/
inductive Event where
  | saveAttempt : Event
  | lockRelease : Event
deriving DecidableEq

/-- Embedding of `__exit__`: `try: self.save_history() finally:
self.unlock_history()`.  The result carries the final instance state, the
trace of steps in execution order, and whether an exception escaping
`save_history` propagates onward (it does, but only after the `finally`
block released the lock). -/
def exit_history (s : DownloadHistoryFile) (saveRaises : Bool) :
    DownloadHistoryFile × List Event × Bool :=
  (unlock_history s,
   Event.saveAttempt ::
     (match s.lock with
      | LockAttr.noneAttr => []
      | LockAttr.lockObj _ => [Event.lockRelease]),
   saveRaises)

end DownloadHistoryFile

/-- Embedding of `get_offline_name` (from `office_file_downloader.py`, the
same extension-remapping rule the spec exposes for reuse): `.osheet` becomes
`.xlsx`, `.odoc` becomes `.docx`, `.oslides` becomes `.pptx`, and any other
suffix yields no result.  The source checks the three suffixes in insertion
order and slices off `len(ext)` characters.  Python string operations are
rendered at the character-list level so that they compute definitionally. -/
def get_offline_name (name : String) : Option String :=
  if ".osheet".data.isSuffixOf name.data then
    some (String.mk (name.data.take (name.data.length - 7)) ++ ".xlsx")
  else if ".odoc".data.isSuffixOf name.data then
    some (String.mk (name.data.take (name.data.length - 5)) ++ ".docx")
  else if ".oslides".data.isSuffixOf name.data then
    some (String.mk (name.data.take (name.data.length - 8)) ++ ".pptx")
  else none

/-- Python `os.path.join` restricted to two components: an absolute second
component replaces the first, otherwise the parts are joined with a single
separator. -/
def osPathJoin (a b : String) : String :=
  if "/".data.isPrefixOf b.data then b
  else if a = "" then b
  else if "/".data.isSuffixOf a.data then a ++ b
  else a ++ "/" ++ b

/-- Modelled from the spec: the recorded output location of a history path,
derived from the converted filename with the same rule as the live conversion
path — convert the extension, strip leading slashes, and join with the
output directory (spec section 4.2; the tests expect removal at
`os.path.join(output_dir, 'path/to/spreadsheet.xlsx')` for history key
`/path/to/spreadsheet.osheet`). -/
def outputLocation (output_dir path : String) : Option String :=
  (get_offline_name path).map
    (fun n => osPathJoin output_dir
      (String.mk (n.data.dropWhile (fun c => c = '/'))))

/-- Modelled from the spec: the exporter state that reconciliation touches.
`SynologyOfficeExporter` itself is not under `src/` (only its tests are), so
the fields follow the spec RunState plus the history mapping: the history
store contents, the seen-paths set `current_file_paths`, the `deleted_files`
counter, the `had_exceptions` failure flag, and the set of local files
currently existing on disk (`fs`). -/
structure ExporterState where
  history : PyDict
  current_file_paths : List String
  deleted_files : Nat
  had_exceptions : Bool
  fs : List String

/-- Modelled from the spec: one iteration of the reconciliation loop over a
single orphaned path (spec section 4.2).  `failing` is the set of local paths
whose `os.remove` raises (e.g. a permission error).  If a local file exists
at the derived output location it is deleted and the counter incremented; a
deletion failure is caught, sets the failure flag and deletes nothing; in
every case the history entry is removed afterwards. -/
def processOrphan (output_dir : String) (failing : List String)
    (s : ExporterState) (p : String) : ExporterState :=
  match outputLocation output_dir p with
  | none =>
    { s with history := pyDel s.history p }
  | some out =>
    if s.fs.contains out then
      if failing.contains out then
        { s with had_exceptions := true, history := pyDel s.history p }
      else
        { s with fs := s.fs.erase out,
                 deleted_files := s.deleted_files + 1,
                 history := pyDel s.history p }
    else
      { s with history := pyDel s.history p }

/-- Modelled from the spec: the orphaned paths, i.e. the set difference of
the history keys and the seen paths of the current traversal. -/
def orphanedPaths (s : ExporterState) : List String :=
  (s.history.map Prod.fst).filter (fun p => !(s.current_file_paths.contains p))

/-- Modelled from the spec: `SynologyOfficeExporter._remove_deleted_files`
(not under `src/`): compute the orphaned paths and process each one in
order. -/
def removeDeletedFiles (output_dir : String) (failing : List String)
    (s : ExporterState) : ExporterState :=
  (orphanedPaths s).foldl (processOrphan output_dir failing) s

/-- Whether processing orphan `p` performs an actual filesystem deletion:
its derived output location exists on disk and removing it does not fail. -/
def deletesFile (output_dir : String) (failing fs : List String)
    (p : String) : Bool :=
  match outputLocation output_dir p with
  | some out => fs.contains out && !(failing.contains out)
  | none => false

/-- Modelled from the spec: the reconciliation step of
`SynologyOfficeExporter.__exit__` (not under `src/`): reconciliation runs
only when the traversal recorded no failure and no exception is propagating
out of the `with` body; otherwise the state is left untouched (spec section
4.2 and the tests in `tests/test_deleted_files.py`). -/
def exporter_exit (output_dir : String) (failing : List String)
    (s : ExporterState) (excInFlight : Bool) : ExporterState :=
  if s.had_exceptions || excInFlight then s
  else removeDeletedFiles output_dir failing s

/-- Whether a parsed JSON value lacks the `_meta` metadata wrapper: it is not
an object, or it is an object without a `_meta` key. -/
def lacksMeta : JValue → Bool
  | .jobj fields => !(pyHasKey fields "_meta")
  | _ => true

open DownloadHistoryFile

/-- A concrete store with one history entry, used by the witnesses. -/
def sampleStore : DownloadHistoryFile :=
  ⟨LockAttr.noneAttr,
   [("/path/to/doc.odoc",
     JValue.jobj [("file_id", JValue.jstr "id1"), ("hash", JValue.jstr "h1"),
                  ("download_time", JValue.jstr "2023-01-01 12:00:00")])],
   false, false⟩

/-- C1: `should_download` returns true unconditionally under `force_download`;
otherwise it returns true exactly when the path has no history entry or the
stored hash differs from the given hash, and false only when the stored hash
equals it exactly. -/
theorem should_download_correct (s : DownloadHistoryFile) (p h : String)
    (entry : PyDict) (hv : String) :
    (s.force_download = true → should_download s p h = .ok true)
    ∧ (s.force_download = false → pyGet s.download_history p = none →
        should_download s p h = .ok true)
    ∧ (s.force_download = false →
        pyGet s.download_history p = some (.jobj entry) →
        pyGet entry "hash" = some (.jstr hv) →
        should_download s p h = .ok (hv != h))
    ∧ (s.force_download = false →
        pyGet s.download_history p = some (.jobj entry) →
        pyGet entry "hash" = some (.jstr hv) →
        (should_download s p h = .ok false ↔ hv = h)) := by
  refine ⟨fun hf => ?_, fun hf hnone => ?_, fun hf hentry hhash => ?_,
          fun hf hentry hhash => ?_⟩
  · simp [should_download, hf]
  · simp [should_download, hf, hnone]
  · simp [should_download, hf, hentry, hhash, JValue.eqStr, bne]
  · simp only [should_download, hf, if_false, hentry, hhash, JValue.eqStr]
    constructor
    · intro hok
      have : (!(hv == h)) = false := by
        have := congrArg (fun x => match x with | Except.ok b => b | _ => true) hok
        simpa using this
      simpa using this
    · intro heq
      subst heq
      simp

/-- C1 witness: evaluated on a concrete store holding `/path/to/doc.odoc`
with hash `h1`. -/
theorem should_download_correct_witness :
    sampleStore.force_download = false
    ∧ pyGet sampleStore.download_history "/path/to/doc.odoc"
        = some (JValue.jobj [("file_id", JValue.jstr "id1"),
                             ("hash", JValue.jstr "h1"),
                             ("download_time", JValue.jstr "2023-01-01 12:00:00")])
    ∧ should_download sampleStore "/path/to/doc.odoc" "h2" = .ok true
    ∧ should_download sampleStore "/path/to/doc.odoc" "h1" = .ok false := by
  refine ⟨rfl, rfl, ?_, ?_⟩
  · have := (should_download_correct sampleStore "/path/to/doc.odoc" "h2"
      [("file_id", JValue.jstr "id1"), ("hash", JValue.jstr "h1"),
       ("download_time", JValue.jstr "2023-01-01 12:00:00")] "h1").2.2.1
      rfl rfl rfl
    simpa using this
  · exact ((should_download_correct sampleStore "/path/to/doc.odoc" "h1"
      [("file_id", JValue.jstr "id1"), ("hash", JValue.jstr "h1"),
       ("download_time", JValue.jstr "2023-01-01 12:00:00")] "h1").2.2.2
      rfl rfl rfl).mpr rfl

/-- C2: loading a parsed history file whose `_meta` has a wrong magic
sentinel, or a numeric version exceeding `HISTORY_VERSION`, raises
`DownloadHistoryError` and leaves the in-memory mapping untouched (the
instance is returned unchanged, so a fresh store stays empty and is never
partially populated from the rejected file). -/
theorem load_history_rejects_bad_meta (s : DownloadHistoryFile)
    (fields m : PyDict) (hskip : s.skip_history = false)
    (hmeta : pyGet fields "_meta" = some (.jobj m))
    (hbad : magicMatches m = false ∨
      ∃ v : Int, pyGet m "version" = some (.jnum v) ∧ v > HISTORY_VERSION) :
    load_into s (some (some (.jobj fields)))
      = (s, some PyErr.downloadHistoryError) := by
  unfold load_into load_history
  rw [hskip]
  simp only [Bool.false_eq_true, if_false, hmeta]
  by_cases hm : magicMatches m = false
  · simp [hm]
  · rcases hbad with hb | ⟨v, hv, hgt⟩
    · exact absurd hb hm
    · rw [Bool.not_eq_false] at hm
      simp [hm, versionValue, hv, hgt]

/-- C2 witness: a fresh store rejecting a file with a wrong magic value and
rejecting a file with version 2. -/
theorem load_history_rejects_bad_meta_witness :
    (DownloadHistoryFile.init false false).skip_history = false
    ∧ pyGet [("_meta", JValue.jobj [("magic", JValue.jstr "WRONG")])] "_meta"
        = some (JValue.jobj [("magic", JValue.jstr "WRONG")])
    ∧ load_into (DownloadHistoryFile.init false false)
        (some (some (JValue.jobj
          [("_meta", JValue.jobj [("magic", JValue.jstr "WRONG")])])))
        = (DownloadHistoryFile.init false false, some PyErr.downloadHistoryError)
    ∧ load_into (DownloadHistoryFile.init false false)
        (some (some (JValue.jobj
          [("_meta", JValue.jobj
            [("magic", JValue.jstr "SYNOLOGY_OFFICE_EXPORTER"),
             ("version", JValue.jnum 2)]),
           ("files", JValue.jobj [])])))
        = (DownloadHistoryFile.init false false, some PyErr.downloadHistoryError) := by
  refine ⟨rfl, rfl, ?_, ?_⟩
  · exact load_history_rejects_bad_meta (DownloadHistoryFile.init false false)
      [("_meta", JValue.jobj [("magic", JValue.jstr "WRONG")])]
      [("magic", JValue.jstr "WRONG")] rfl rfl (Or.inl rfl)
  · exact load_history_rejects_bad_meta (DownloadHistoryFile.init false false)
      [("_meta", JValue.jobj
        [("magic", JValue.jstr "SYNOLOGY_OFFICE_EXPORTER"),
         ("version", JValue.jnum 2)]),
       ("files", JValue.jobj [])]
      [("magic", JValue.jstr "SYNOLOGY_OFFICE_EXPORTER"),
       ("version", JValue.jnum 2)] rfl rfl
      (Or.inr ⟨2, rfl, by decide⟩)

/-- C3 counterexample: a fresh store loading a history file that parses to
the JSON object with a `files` key but no `_meta` wrapper returns normally
with no error raised, refuting the claim that `load_history` raises a format
error in this case. -/
theorem load_history_missing_meta_counterexample :
    load_into (DownloadHistoryFile.init false false)
      (some (some (JValue.jobj [("files", JValue.jobj [])])))
      = (DownloadHistoryFile.init false false, none) := rfl

/-- C3 amended: when the history file parses as JSON whose top-level
structure lacks the `_meta` metadata wrapper (a non-object, or an object
without the `_meta` key), `load_history` returns normally without raising and
leaves the in-memory mapping unchanged (empty for a fresh store). -/
theorem load_history_missing_meta_returns_normally (s : DownloadHistoryFile)
    (data : JValue) (hskip : s.skip_history = false)
    (hnometa : lacksMeta data = true) :
    load_into s (some (some data)) = (s, none) := by
  obtain ⟨l, dh, fd, sk⟩ := s
  simp only at hskip
  subst hskip
  cases data with
  | jobj fields =>
    have hnone : pyGet fields "_meta" = none := by
      cases hpg : pyGet fields "_meta" with
      | none => rfl
      | some v =>
        simp only [lacksMeta, pyHasKey] at hnometa
        rw [hpg] at hnometa
        simp at hnometa
    simp [load_into, load_history, hnone]
  | jnull => rfl
  | jbool b => rfl
  | jnum n => rfl
  | jstr t => rfl
  | jarr xs => rfl

/-- C3 amended witness: the legacy-format file `{}` (an object with no keys)
is accepted silently by a fresh store. -/
theorem load_history_missing_meta_returns_normally_witness :
    (DownloadHistoryFile.init false false).skip_history = false
    ∧ lacksMeta (JValue.jobj []) = true
    ∧ load_into (DownloadHistoryFile.init false false)
        (some (some (JValue.jobj [])))
        = (DownloadHistoryFile.init false false, none) :=
  ⟨rfl, rfl, load_history_missing_meta_returns_normally
    (DownloadHistoryFile.init false false) (JValue.jobj []) rfl rfl⟩

/-- C4: saving a store (with `skip_history` false) and loading the written
value into a fresh instance yields the identical path-to-entry mapping, and
the generated metadata differs between two saves only in the regenerated
`created` timestamp field. -/
theorem save_load_round_trip (s : DownloadHistoryFile) (created other : String)
    (k : String) (hskip : s.skip_history = false) :
    load_history false (some (save_history s created)) []
      = .ok s.download_history
    ∧ pyGet (build_metadata created) "created" = some (JValue.jstr created)
    ∧ (k ≠ "created" →
        pyGet (build_metadata created) k = pyGet (build_metadata other) k) := by
  refine ⟨?_, rfl, ?_⟩
  · unfold save_history
    rw [hskip]
    rfl
  · intro hk
    simp only [build_metadata, pyGet]
    by_cases h1 : "version" = k
    · simp [h1]
    · by_cases h2 : "magic" = k
      · simp [h1, h2]
      · by_cases h3 : "created" = k
        · exact absurd h3.symm hk
        · by_cases h4 : "program" = k <;> simp [h1, h2, h3, h4]

/-- C4 witness: round-trips the concrete one-entry store; the metadata of
two saves at different times agrees on the `magic` field. -/
theorem save_load_round_trip_witness :
    sampleStore.skip_history = false
    ∧ ("magic" ≠ "created")
    ∧ load_history false (some (save_history sampleStore "2023-01-01")) []
        = .ok sampleStore.download_history
    ∧ pyGet (build_metadata "2023-01-01") "magic"
        = pyGet (build_metadata "2024-02-02") "magic" := by
  have h := save_load_round_trip sampleStore "2023-01-01" "2024-02-02" "magic" rfl
  exact ⟨rfl, by decide, h.1, h.2.2 (by decide)⟩

/-- C8: when another process already holds the lock and history is not
skipped, entering the context raises `DownloadHistoryError` immediately (the
non-blocking acquire fails); the history mapping is never loaded or modified
in that run — the instance keeps its previous mapping and only the
unacquired lock object was assigned. -/
theorem lock_contention_aborts (s : DownloadHistoryFile)
    (file : Option (Option JValue)) (hskip : s.skip_history = false) :
    enter s true file
      = ({ s with lock := LockAttr.lockObj false }, some PyErr.downloadHistoryError)
    ∧ (enter s true file).1.download_history = s.download_history := by
  obtain ⟨l, dh, fd, sk⟩ := s
  simp only at hskip
  subst hskip
  exact ⟨rfl, rfl⟩

/-- C8 witness: the concrete one-entry store aborts with the lock error and
an unchanged mapping when the lock is contended. -/
theorem lock_contention_aborts_witness :
    sampleStore.skip_history = false
    ∧ enter sampleStore true none
        = ({ sampleStore with lock := LockAttr.lockObj false },
           some PyErr.downloadHistoryError)
    ∧ (enter sampleStore true none).1.download_history
        = sampleStore.download_history := by
  have h := lock_contention_aborts sampleStore none rfl
  exact ⟨rfl, h.1, h.2⟩

/-- C9: on every exit of the context, `save_history` is attempted first and
the lock is released afterwards on every exit path: the resulting lock is
never held, the first traced step is the save attempt, a release step is
traced whenever a lock object exists, and an exception escaping the save
propagates only after the cleanup ran. -/
theorem exit_releases_lock (s : DownloadHistoryFile) (saveRaises : Bool) :
    ((exit_history s saveRaises).1.lock).held = false
    ∧ (exit_history s saveRaises).2.1.head? = some Event.saveAttempt
    ∧ (s.lock = LockAttr.noneAttr ∨
        Event.lockRelease ∈ (exit_history s saveRaises).2.1)
    ∧ (exit_history s saveRaises).2.2 = saveRaises := by
  obtain ⟨l, dh, fd, sk⟩ := s
  cases l with
  | noneAttr => exact ⟨rfl, rfl, Or.inl rfl, rfl⟩
  | lockObj h =>
    refine ⟨rfl, rfl, Or.inr ?_, rfl⟩
    simp [exit_history]

/-- C10: with `skip_history` set, `lock_history` acquires nothing (no error,
no lock object, the attribute stays as constructed) and `unlock_history`
releases nothing on a `None` lock; two skip-history runs both succeed with no
lock error regardless of who else holds the lock file. -/
theorem skip_history_no_locking (s t : DownloadHistoryFile) (oh1 oh2 : Bool)
    (hs : s.skip_history = true) (ht : t.skip_history = true) :
    lock_history s oh1 = (s, none)
    ∧ (s.lock = LockAttr.noneAttr → unlock_history s = s)
    ∧ lock_history t oh2 = (t, none) := by
  refine ⟨?_, fun hl => ?_, ?_⟩
  · simp [lock_history, hs]
  · simp [unlock_history, hl]
  · simp [lock_history, ht]

/-- C10 witness: two fresh skip-history stores, one facing a held lock file
and one not, both proceed without an error and without acquiring a lock. -/
theorem skip_history_no_locking_witness :
    (DownloadHistoryFile.init false true).skip_history = true
    ∧ lock_history (DownloadHistoryFile.init false true) true
        = (DownloadHistoryFile.init false true, none)
    ∧ unlock_history (DownloadHistoryFile.init false true)
        = DownloadHistoryFile.init false true
    ∧ lock_history (DownloadHistoryFile.init true true) false
        = (DownloadHistoryFile.init true true, none) := by
  have h := skip_history_no_locking (DownloadHistoryFile.init false true)
    (DownloadHistoryFile.init true true) true false rfl rfl
  exact ⟨rfl, h.1, h.2.1 rfl, h.2.2⟩

/-- Processing one orphan always removes exactly its history entry. -/
lemma processOrphan_history (d : String) (failing : List String)
    (s : ExporterState) (p : String) :
    (processOrphan d failing s p).history = pyDel s.history p := by
  unfold processOrphan
  cases hout : outputLocation d p with
  | none => rfl
  | some out =>
    dsimp only
    split_ifs <;> rfl

/-- Processing one orphan increments the deleted counter exactly when an
actual filesystem deletion happens. -/
lemma processOrphan_deleted_files (d : String) (failing : List String)
    (s : ExporterState) (p : String) :
    (processOrphan d failing s p).deleted_files
      = s.deleted_files + (if deletesFile d failing s.fs p then 1 else 0) := by
  unfold processOrphan deletesFile
  cases hout : outputLocation d p with
  | none => rfl
  | some out =>
    dsimp only
    split_ifs <;> simp_all

/-- Folding the reconciliation step over a path list deletes those keys from
the history, and nothing else. -/
lemma foldl_processOrphan_history (d : String) (failing : List String)
    (ps : List String) :
    ∀ s : ExporterState,
      ((ps.foldl (processOrphan d failing) s).history)
        = ps.foldl (fun h p => pyDel h p) s.history := by
  induction ps with
  | nil => intro s; rfl
  | cons p ps ih =>
    intro s
    rw [List.foldl_cons, List.foldl_cons, ih, processOrphan_history]

/-- Folding Python deletions over a key list filters those keys out. -/
lemma foldl_pyDel_filter (ps : List String) :
    ∀ h : PyDict,
      ps.foldl (fun acc p => pyDel acc p) h
        = h.filter (fun kv => !(ps.contains kv.1)) := by
  induction ps with
  | nil =>
    intro h
    simp
  | cons p ps ih =>
    intro h
    rw [List.foldl_cons, ih]
    unfold pyDel
    rw [List.filter_filter]
    apply List.filter_congr
    intro kv _
    simp only [List.contains_cons, Bool.not_or]
    rw [Bool.and_comm]
    rfl

/-- For a key occurring in the history, membership in the orphan list is
exactly non-membership in the seen paths. -/
lemma contains_orphanedPaths (s : ExporterState) (x : String)
    (hx : x ∈ s.history.map Prod.fst) :
    ((orphanedPaths s).contains x) = !(s.current_file_paths.contains x) := by
  unfold orphanedPaths
  simp only [List.contains, List.elem_eq_mem, List.mem_filter]
  by_cases hc : x ∈ s.current_file_paths
  · simp [hc]
  · simp [hc, hx]

/-- Shared helper: reconciliation removes exactly the orphaned entries from
the history, keeping every seen path, independently of the filesystem and of
any deletion failures. -/
lemma removeDeletedFiles_history (d : String) (failing : List String)
    (s : ExporterState) :
    (removeDeletedFiles d failing s).history
      = s.history.filter (fun kv => s.current_file_paths.contains kv.1) := by
  unfold removeDeletedFiles
  rw [foldl_processOrphan_history, foldl_pyDel_filter]
  apply List.filter_congr
  intro kv hkv
  rw [contains_orphanedPaths s kv.1 (List.mem_map_of_mem Prod.fst hkv)]
  simp

/-- Deleting a key makes it absent from the mapping. -/
lemma pyGet_pyDel_self (h : PyDict) (p : String) :
    pyGet (pyDel h p) p = none := by
  induction h with
  | nil => rfl
  | cons kv rest ih =>
    by_cases hk : kv.1 = p
    · simpa [pyDel, List.filter_cons, hk] using ih
    · simpa [pyDel, List.filter_cons, hk, pyGet] using ih

/-- When no filesystem deletion happens for an orphan, the disk state is
untouched. -/
lemma processOrphan_fs_of_no_delete (d : String) (failing : List String)
    (s : ExporterState) (p : String)
    (h : deletesFile d failing s.fs p = false) :
    (processOrphan d failing s p).fs = s.fs := by
  unfold processOrphan
  unfold deletesFile at h
  cases hout : outputLocation d p with
  | none => rfl
  | some out =>
    rw [hout] at h
    dsimp only at h ⊢
    split_ifs with h1 h2
    · rfl
    · simp_all
    · rfl

/-- A concrete exporter state: history holds `/a.odoc` and `/b.osheet`, the
traversal saw only `/a.odoc`, and the converted output of `/b.osheet` exists
on disk. -/
def sampleRun : ExporterState :=
  ⟨[("/a.odoc", JValue.jstr "e1"), ("/b.osheet", JValue.jstr "e2")],
   ["/a.odoc"], 0, false, ["o/b.xlsx"]⟩

/-- C5: reconciliation removes exactly the orphaned entries (every seen path
keeps its entry, every orphan loses it regardless of the filesystem), and
the deleted counter increments for an orphan exactly when its local output
file existed and was physically removed — an orphan whose file is absent
leaves both the counter and the disk unchanged. -/
theorem remove_deleted_files_correct (d : String) (failing : List String)
    (s : ExporterState) (p : String) :
    (removeDeletedFiles d failing s).history
        = s.history.filter (fun kv => s.current_file_paths.contains kv.1)
    ∧ (processOrphan d failing s p).deleted_files
        = s.deleted_files + (if deletesFile d failing s.fs p then 1 else 0)
    ∧ (deletesFile d failing s.fs p = false →
        (processOrphan d failing s p).fs = s.fs) :=
  ⟨removeDeletedFiles_history d failing s,
   processOrphan_deleted_files d failing s p,
   processOrphan_fs_of_no_delete d failing s p⟩

/-- C5 witness: on the concrete run, the orphan `/b.osheet` is purged while
`/a.odoc` survives, its existing output is counted as deleted, and an orphan
whose output is absent leaves the counter and disk unchanged. -/
theorem remove_deleted_files_correct_witness :
    (removeDeletedFiles "o" [] sampleRun).history
        = [("/a.odoc", JValue.jstr "e1")]
    ∧ (processOrphan "o" [] sampleRun "/b.osheet").deleted_files = 1
    ∧ deletesFile "o" [] sampleRun.fs "/gone.odoc" = false
    ∧ (processOrphan "o" [] sampleRun "/gone.odoc").fs = sampleRun.fs
    ∧ (processOrphan "o" [] sampleRun "/gone.odoc").deleted_files = 0 := by
  have h1 := remove_deleted_files_correct "o" [] sampleRun "/b.osheet"
  have h2 := remove_deleted_files_correct "o" [] sampleRun "/gone.odoc"
  refine ⟨?_, ?_, by decide, h2.2.2 (by decide), ?_⟩
  · rw [h1.1]; rfl
  · rw [h1.2.1]; decide
  · rw [h2.2.1]; decide

/-- C6: reconciliation runs only when the preceding traversal completed with
the failure flag false and no exception is propagating; when the flag is set
the exporter state passes through untouched — no file deletion, unchanged
history, unchanged deleted count. -/
theorem reconciliation_skipped_on_failure (d : String) (failing : List String)
    (s : ExporterState) (exc : Bool) :
    (s.had_exceptions = true → exporter_exit d failing s exc = s)
    ∧ (s.had_exceptions = true →
        (exporter_exit d failing s exc).history = s.history
        ∧ (exporter_exit d failing s exc).fs = s.fs
        ∧ (exporter_exit d failing s exc).deleted_files = s.deleted_files)
    ∧ (s.had_exceptions = false → exc = false →
        exporter_exit d failing s exc = removeDeletedFiles d failing s) := by
  refine ⟨fun hf => ?_, fun hf => ?_, fun hf he => ?_⟩
  · simp [exporter_exit, hf]
  · simp [exporter_exit, hf]
  · simp [exporter_exit, hf, he]

/-- C6 witness: the concrete run with the failure flag set exits with
history, disk and counter untouched. -/
theorem reconciliation_skipped_on_failure_witness :
    ({ sampleRun with had_exceptions := true } : ExporterState).had_exceptions = true
    ∧ exporter_exit "o" [] { sampleRun with had_exceptions := true } false
        = { sampleRun with had_exceptions := true }
    ∧ (exporter_exit "o" [] { sampleRun with had_exceptions := true } false).history
        = sampleRun.history
    ∧ (exporter_exit "o" [] { sampleRun with had_exceptions := true } false).deleted_files
        = 0 := by
  have h := reconciliation_skipped_on_failure "o" []
    { sampleRun with had_exceptions := true } false
  exact ⟨rfl, h.1 rfl, (h.2.1 rfl).1, (h.2.1 rfl).2.2⟩

/-- C7: when physically deleting an orphaned output raises, the exception is
caught: the failure flag is set, the disk and counter are unchanged, the
failing orphan still loses its history entry, and the loop continues so that
reconciliation still removes exactly the orphaned entries. -/
theorem deletion_failure_flagged_and_continues (d : String)
    (failing : List String) (s : ExporterState) (p out : String)
    (hout : outputLocation d p = some out)
    (hfs : s.fs.contains out = true)
    (hfail : failing.contains out = true) :
    (processOrphan d failing s p).had_exceptions = true
    ∧ pyGet (processOrphan d failing s p).history p = none
    ∧ (processOrphan d failing s p).fs = s.fs
    ∧ (processOrphan d failing s p).deleted_files = s.deleted_files
    ∧ (removeDeletedFiles d failing s).history
        = s.history.filter (fun kv => s.current_file_paths.contains kv.1) := by
  have hstep : processOrphan d failing s p
      = { s with had_exceptions := true, history := pyDel s.history p } := by
    unfold processOrphan
    rw [hout]
    dsimp only
    rw [if_pos hfs, if_pos hfail]
  rw [hstep]
  exact ⟨rfl, pyGet_pyDel_self s.history p, rfl, rfl,
    removeDeletedFiles_history d failing s⟩

/-- C7 witness: with the output of `/b.osheet` present but failing to
delete, the flag is set, nothing is removed from disk or counted, the entry
is purged, and the other orphanless entry survives reconciliation. -/
theorem deletion_failure_flagged_and_continues_witness :
    outputLocation "o" "/b.osheet" = some "o/b.xlsx"
    ∧ sampleRun.fs.contains "o/b.xlsx" = true
    ∧ (["o/b.xlsx"] : List String).contains "o/b.xlsx" = true
    ∧ (processOrphan "o" ["o/b.xlsx"] sampleRun "/b.osheet").had_exceptions = true
    ∧ pyGet (processOrphan "o" ["o/b.xlsx"] sampleRun "/b.osheet").history
        "/b.osheet" = none
    ∧ (processOrphan "o" ["o/b.xlsx"] sampleRun "/b.osheet").deleted_files = 0
    ∧ (removeDeletedFiles "o" ["o/b.xlsx"] sampleRun).history
        = [("/a.odoc", JValue.jstr "e1")] := by
  have h := deletion_failure_flagged_and_continues "o" ["o/b.xlsx"] sampleRun
    "/b.osheet" "o/b.xlsx" (by rfl) (by decide) (by decide)
  refine ⟨by rfl, by decide, by decide, h.1, h.2.1, h.2.2.2.1, ?_⟩
  rw [h.2.2.2.2]
  rfl

end SynologyOfficeExporter
